import Mathlib

/- Verification development for the wxinflux weather-ingestion daemon.
   The embedding covers weather_calc.go (metric calculator) and wxinflux.go
   (connection manager, packet reader, report writer).  float32 arithmetic is
   modelled exactly over ℚ; the two transcendental library calls, math.Log and
   math.Pow, are abstracted as explicit function parameters logF and powF,
   since their bit-level behaviour lies outside the program text. -/

/-- Embeds fToC from weather_calc.go: Fahrenheit to Celsius. -/
def fToC (t : ℚ) : ℚ := (t - 32) * 5 / 9

/-- Embeds cToF from weather_calc.go: Celsius to Fahrenheit. -/
def cToF (t : ℚ) : ℚ := t * 9 / 5 + 32

/-- Embeds the local γ of dewpointCelcius: 17.27*t/(237.7+t) + log(rh/100),
where logF models float32(math.Log(float64 x)). -/
def dewγ (logF : ℚ → ℚ) (t rh : ℚ) : ℚ :=
  17.27 * t / (237.7 + t) + logF (rh / 100)

/-- Embeds dewpointCelcius from weather_calc.go: Magnus-formula dewpoint in °C
with early return 0.0 for t < 0, for t = -237.7, and for γ = 17.27. -/
def dewpointCelcius (logF : ℚ → ℚ) (t rh : ℚ) : ℚ :=
  if t < 0 then 0
  else if t = -237.7 then 0
  else if dewγ logF t rh = 17.27 then 0
  else 237.7 * dewγ logF t rh / (17.27 - dewγ logF t rh)

/-- Embeds dewpointFahrenheit from weather_calc.go:
cToF ∘ dewpointCelcius ∘ fToC on the temperature argument. -/
def dewpointFahrenheit (logF : ℚ → ℚ) (t rh : ℚ) : ℚ :=
  cToF (dewpointCelcius logF (fToC t) rh)

/-- Embeds windchillFahrenheit from weather_calc.go, where powF models
float32(math.Pow(float64 b, e)). -/
def windchillFahrenheit (powF : ℚ → ℚ → ℚ) (t ws : ℚ) : ℚ :=
  if t ≥ 50 ∨ ws ≤ 0 then t
  else 35.74 + 0.6215 * t + (-35.75 + 0.4275 * t) * powF ws 0.16

/-- Embeds heatIndexFahrenheit from weather_calc.go (pure polynomial). -/
def heatIndexFahrenheit (t rh : ℚ) : ℚ :=
  if t < 80 ∨ rh ≤ 40 then t
  else
    -42.379 + 2.04901523 * t + 10.14333127 * rh - 0.22475541 * t * rh
      - 0.00683783 * t * t - 0.05481717 * rh * rh + 0.00122874 * t * t * rh
      + 0.00085282 * t * rh * rh - 0.00000199 * t * t * rh * rh

/-- Follows the spec words for the heat-index claim: the standard NOAA
(Rothfusz) polynomial regression in t and rh, written from the published
NOAA coefficients, to be compared with the code's formula branch. -/
def heatIndexNOAA (t rh : ℚ) : ℚ :=
  -42.379 + 2.04901523 * t + 10.14333127 * rh - 0.22475541 * t * rh
    - 0.00683783 * t * t - 0.05481717 * rh * rh + 0.00122874 * t * t * rh
    + 0.00085282 * t * rh * rh - 0.00000199 * t * t * rh * rh

/-- Embeds ConnStatus from wxinflux.go. -/
inductive ConnStatus where
  | NotConnected
  | Connecting
  | Connected
deriving DecidableEq

/-- Embeds WxPacket from wxinflux.go (the decoded wire record).  Unsigned
integer fields become ℕ, float32 fields become ℚ. -/
structure WxPacket where
  Ready : Bool
  Status : String
  TransmitterID : ℕ
  RSSI : ℕ
  RxPackets : ℕ
  LostPackets : ℕ
  BadCRCPackets : ℕ
  WindSpeed : ℕ
  WindDir : ℕ
  Temperature : ℚ
  Humidity : ℚ
  UVIndex : ℚ
  SolarRadiation : ℚ
  RainSpoons : ℕ
  Raw : String
  Version : String
deriving DecidableEq

/-- Embeds WxReport from wxinflux.go (the derived report). -/
structure WxReport where
  TransmitterID : ℕ
  WindSpeed : ℕ
  WindDir : ℕ
  Temperature : ℚ
  Humidity : ℚ
  Dewpoint : ℚ
  HeatIndex : ℚ
  WindChill : ℚ
  UVIndex : ℚ
  SolarRadiation : ℚ
  Rainfall : ℚ
deriving DecidableEq

/-- Embeds generateWxReport from wxinflux.go: every derived field is computed
unconditionally from the packet's (possibly zero-valued) fields. -/
def generateWxReport (logF : ℚ → ℚ) (powF : ℚ → ℚ → ℚ) (p : WxPacket) : WxReport :=
  { TransmitterID := p.TransmitterID
    WindSpeed := p.WindSpeed
    WindDir := p.WindDir
    Temperature := p.Temperature
    Humidity := p.Humidity
    Dewpoint := dewpointFahrenheit logF p.Temperature p.Humidity
    HeatIndex := heatIndexFahrenheit p.Temperature p.Humidity
    WindChill := windchillFahrenheit powF p.Temperature (p.WindSpeed : ℚ)
    UVIndex := p.UVIndex
    SolarRadiation := p.SolarRadiation
    Rainfall := (p.RainSpoons : ℚ) * 0.1 }

/-- Embeds the wire-level JSON record: every field carrying the omitempty tag
may be absent.  Mirrors the json field list of WxPacket. -/
structure WxPacketWire where
  ready : Bool
  status : String
  transmitter_id : Option ℕ
  RSSI : Option ℕ
  recv_packets : Option ℕ
  lost_packets : Option ℕ
  bad_CRC : Option ℕ
  wind_speed_mph : Option ℕ
  wind_direction_degrees : Option ℕ
  temperature_F : Option ℚ
  humidity_pct : Option ℚ
  UV_index : Option ℚ
  solar_Wm2 : Option ℚ
  rain_spoons : Option ℕ
  raw : Option String
  version : Option String

/-- Embeds the encoding/json unmarshalling of one record into a WxPacket:
a key absent from the JSON object leaves the Go zero value in the struct. -/
def decodeWxPacket (w : WxPacketWire) : WxPacket :=
  { Ready := w.ready
    Status := w.status
    TransmitterID := w.transmitter_id.getD 0
    RSSI := w.RSSI.getD 0
    RxPackets := w.recv_packets.getD 0
    LostPackets := w.lost_packets.getD 0
    BadCRCPackets := w.bad_CRC.getD 0
    WindSpeed := w.wind_speed_mph.getD 0
    WindDir := w.wind_direction_degrees.getD 0
    Temperature := w.temperature_F.getD 0
    Humidity := w.humidity_pct.getD 0
    UVIndex := w.UV_index.getD 0
    SolarRadiation := w.solar_Wm2.getD 0
    RainSpoons := w.rain_spoons.getD 0
    Raw := w.raw.getD ""
    Version := w.version.getD "" }

/-- Embeds the DavisSi1000 receiver state from wxinflux.go: the serial link
handle (abstracted to an identifier, none while closed) and the connection
status.  The config and the mutex are external collaborators. -/
structure DavisSi1000 where
  conn : Option ℕ
  status : ConnStatus
deriving DecidableEq

/-- Observable actions of connectToSerialSi1000, in program order. -/
inductive ConnEvent where
  | setStatus (s : ConnStatus)
  | openAttempt
  | sleepSeconds (n : ℕ)
  | setConn (h : ℕ)
deriving DecidableEq

/-- Embeds the retry loop body of connectToSerialSi1000: attempts is the
sequence of serial.OpenPort outcomes (none = open error, some h = opened
handle h).  Each failure sleeps 5 seconds and retries; the first success
stores the handle and sets Connected.  A none result means the loop is still
retrying beyond the observed outcomes (the Go loop has no attempt limit). -/
def connectLoop : List (Option ℕ) → Option (ℕ × List ConnEvent)
  | [] => none
  | none :: rest =>
      (connectLoop rest).map
        (fun hk => (hk.1, ConnEvent.openAttempt :: ConnEvent.sleepSeconds 5 :: hk.2))
  | some h :: _ =>
      some (h, [ConnEvent.openAttempt, ConnEvent.setConn h,
        ConnEvent.setStatus ConnStatus.Connected])

/-- Embeds connectToSerialSi1000 from wxinflux.go: the switch on d.status.
Connecting returns immediately; NotConnected sets Connecting then runs the
retry loop; Connected matches no case and falls through to return. -/
def connectToSerialSi1000 (d : DavisSi1000) (attempts : List (Option ℕ)) :
    Option (DavisSi1000 × List ConnEvent) :=
  match d.status with
  | ConnStatus.Connecting => some (d, [])
  | ConnStatus.NotConnected =>
      (connectLoop attempts).map
        (fun hk => ({ conn := some hk.1, status := ConnStatus.Connected },
          ConnEvent.setStatus ConnStatus.Connecting :: hk.2))
  | ConnStatus.Connected => some (d, [])

/-- Trace produced by k failed open attempts: each failure is one attempt
followed by a fixed 5-second sleep. -/
def retryTrace : ℕ → List ConnEvent
  | 0 => []
  | k + 1 => ConnEvent.openAttempt :: ConnEvent.sleepSeconds 5 :: retryTrace k

/-- Outcome of one dec.Decode call in readReports: a successfully decoded
packet, io.EOF, or a non-EOF decode error leaving the packet variable as the
failed Decode left it (zero-valued or partly filled). -/
inductive DecodeResult where
  | ok (p : WxPacket)
  | eof
  | err (p : WxPacket)
deriving DecidableEq

/-- Observable actions of the readReports inner loop. -/
inductive ReaderEvent where
  | published (r : WxReport)
  | setNotConnected
  | reconnected
deriving DecidableEq

/-- Embeds the inner loop of readReports from wxinflux.go over one decoder's
stream of decode outcomes.  The code tests err == io.EOF only: on io.EOF it
sets NotConnected, calls connectToSerialSi1000 and breaks; on a nil error OR
on any non-EOF decode error it falls through to generateWxReport and sends
the report on the channel. -/
def readReportsInner (logF : ℚ → ℚ) (powF : ℚ → ℚ → ℚ) :
    List DecodeResult → List ReaderEvent
  | [] => []
  | DecodeResult.ok p :: rest =>
      ReaderEvent.published (generateWxReport logF powF p) ::
        readReportsInner logF powF rest
  | DecodeResult.eof :: _ =>
      [ReaderEvent.setNotConnected, ReaderEvent.reconnected]
  | DecodeResult.err p :: rest =>
      ReaderEvent.published (generateWxReport logF powF p) ::
        readReportsInner logF powF rest

/-- Projects the report out of a publish event. -/
def publishedOf : ReaderEvent → Option WxReport
  | ReaderEvent.published r => some r
  | _ => none

/-- Sequence of reports the reader sends on reportChan, in send order. -/
def reportsPublished (logF : ℚ → ℚ) (powF : ℚ → ℚ → ℚ)
    (stream : List DecodeResult) : List WxReport :=
  (readReportsInner logF powF stream).filterMap publishedOf

/-- Models the unbuffered reportChan handoff: a Go channel with a single
producer and a single consumer delivers values to the receiver in exactly the
order they were sent (FIFO, no duplication). -/
def channelDeliver (sent : List WxReport) : List WxReport := sent

/-- Sequence of reports the Report Writer receives, for a stream of
successfully decoded packets. -/
def writerObserved (logF : ℚ → ℚ) (powF : ℚ → ℚ → ℚ)
    (packets : List WxPacket) : List WxReport :=
  channelDeliver (reportsPublished logF powF (packets.map DecodeResult.ok))

/-- Environment outcome for one storeReports iteration: whether
influx.NewBatchPoints succeeds and whether ic.Write succeeds. -/
structure WriteOutcome where
  batchOk : Bool
  writeOk : Bool
deriving DecidableEq

/-- Observable result of one storeReports iteration: a logged batch-build
error, a logged write error, or a stored report. -/
inductive WriterEvent where
  | batchError
  | writeError
  | stored (r : WxReport)
deriving DecidableEq

/-- Embeds one iteration of the storeReports loop body: batch construction
failure logs and continues; write failure logs and continues; otherwise the
point is written. -/
def processOne (r : WxReport) (o : WriteOutcome) : WriterEvent :=
  if o.batchOk = false then WriterEvent.batchError
  else if o.writeOk = false then WriterEvent.writeError
  else WriterEvent.stored r

/-- Embeds the storeReports loop from wxinflux.go: each received report is
handled by one iteration and the loop unconditionally continues with the
next receive. -/
def storeReports : List (WxReport × WriteOutcome) → List WriterEvent
  | [] => []
  | (r, o) :: rest => processOne r o :: storeReports rest

/-- Zero value of WxPacket, as Go's var packet WxPacket leaves it before a
failed Decode populates any field. -/
def wxPacketZero : WxPacket :=
  { Ready := false, Status := "", TransmitterID := 0, RSSI := 0, RxPackets := 0,
    LostPackets := 0, BadCRCPackets := 0, WindSpeed := 0, WindDir := 0,
    Temperature := 0, Humidity := 0, UVIndex := 0, SolarRadiation := 0,
    RainSpoons := 0, Raw := "", Version := "" }

/-- Concrete report used by writer witnesses. -/
def wxReportZero : WxReport :=
  generateWxReport (fun _ => 0) (fun _ _ => 0) wxPacketZero

/-- Concrete wire record with the temperature key absent. -/
def wireNoTemp : WxPacketWire :=
  { ready := true, status := "ok", transmitter_id := some 1, RSSI := none,
    recv_packets := none, lost_packets := none, bad_CRC := none,
    wind_speed_mph := some 10, wind_direction_degrees := some 180,
    temperature_F := none, humidity_pct := some 55, UV_index := none,
    solar_Wm2 := none, rain_spoons := some 3, raw := none, version := none }

/-- Outcome where influx.NewBatchPoints fails. -/
def outcomeBatchFail : WriteOutcome := { batchOk := false, writeOk := true }

/-- Outcome where both the batch build and the write succeed. -/
def outcomeOk : WriteOutcome := { batchOk := true, writeOk := true }

lemma connectLoop_replicate_none (k : ℕ) :
    connectLoop (List.replicate k none) = none := by
  induction k with
  | zero => rfl
  | succ n ih => simp [List.replicate, connectLoop, ih]

lemma connectLoop_success (k h : ℕ) :
    connectLoop (List.replicate k (none : Option ℕ) ++ [some h]) =
      some (h, retryTrace k ++ [ConnEvent.openAttempt, ConnEvent.setConn h,
        ConnEvent.setStatus ConnStatus.Connected]) := by
  induction k with
  | zero => rfl
  | succ n ih => simp [List.replicate, connectLoop, ih, retryTrace]

lemma readReportsInner_ok_map (logF : ℚ → ℚ) (powF : ℚ → ℚ → ℚ)
    (l : List WxPacket) :
    readReportsInner logF powF (l.map DecodeResult.ok) =
      l.map (fun p => ReaderEvent.published (generateWxReport logF powF p)) := by
  induction l with
  | nil => rfl
  | cons p rest ih => simp [readReportsInner, ih]

lemma filterMap_publishedOf (f : WxPacket → WxReport) (l : List WxPacket) :
    (l.map (fun p => ReaderEvent.published (f p))).filterMap publishedOf =
      l.map f := by
  induction l with
  | nil => rfl
  | cons p rest ih => simp [publishedOf, ih]

lemma storeReports_append (a b : List (WxReport × WriteOutcome)) :
    storeReports (a ++ b) = storeReports a ++ storeReports b := by
  induction a with
  | nil => rfl
  | cons x rest ih =>
      obtain ⟨r, o⟩ := x
      simp [storeReports, ih]

lemma storeReports_length (l : List (WxReport × WriteOutcome)) :
    (storeReports l).length = l.length := by
  induction l with
  | nil => rfl
  | cons x rest ih =>
      obtain ⟨r, o⟩ := x
      simp [storeReports, ih]

/-- C1: the spec claims every decode failure (end-of-stream OR any decode
error) marks NotConnected, reconnects, breaks, and publishes nothing from the
failed record.  The code tests err == io.EOF only, so a non-EOF decode error
publishes a report built from the failed packet and never reconnects.  This
theorem evaluates the embedded reader on a stream whose single decode attempt
fails with a non-EOF error, and contrasts it with the io.EOF case, which does
behave as claimed. -/
theorem C1_reader_publishes_on_decode_error :
    readReportsInner (fun _ => 0) (fun _ _ => 0) [DecodeResult.err wxPacketZero] =
      [ReaderEvent.published
        (generateWxReport (fun _ => 0) (fun _ _ => 0) wxPacketZero)] ∧
    ReaderEvent.reconnected ∉
      readReportsInner (fun _ => 0) (fun _ _ => 0) [DecodeResult.err wxPacketZero] ∧
    ReaderEvent.setNotConnected ∉
      readReportsInner (fun _ => 0) (fun _ _ => 0) [DecodeResult.err wxPacketZero] ∧
    readReportsInner (fun _ => 0) (fun _ _ => 0) [DecodeResult.eof] =
      [ReaderEvent.setNotConnected, ReaderEvent.reconnected] := by
  refine ⟨rfl, ?_, ?_, rfl⟩ <;> simp [readReportsInner]

/-- C2 counterexample: at 0 °F the input temperature is below 0 °C
(fToC 0 = -160/9), yet the Fahrenheit-in/Fahrenheit-out dewpoint returns
32 (= cToF 0), not 0.0 as the claim states. -/
theorem C2_counterexample :
    fToC 0 < 0 ∧
    dewpointFahrenheit (fun _ => 0) 0 50 = 32 ∧ (32 : ℚ) ≠ 0 := by
  refine ⟨by norm_num [fToC], ?_, by norm_num⟩
  have h : fToC 0 < 0 := by norm_num [fToC]
  simp [dewpointFahrenheit, dewpointCelcius, h, cToF]

/-- C2 amended: in each degenerate case — temperature below 0 °C, temperature
exactly -237.7 °C, or γ exactly 17.27 — dewpointCelcius returns exactly 0.0,
and the Fahrenheit wrapper dewpointFahrenheit accordingly returns
cToF 0 = 32.0, not 0.0. -/
theorem C2_dewpoint_guards (logF : ℚ → ℚ) (t rh : ℚ)
    (h : fToC t < 0 ∨ fToC t = -237.7 ∨ dewγ logF (fToC t) rh = 17.27) :
    dewpointCelcius logF (fToC t) rh = 0 ∧
    dewpointFahrenheit logF t rh = 32 := by
  have hc : dewpointCelcius logF (fToC t) rh = 0 := by
    rcases h with h1 | h2 | h3
    · simp [dewpointCelcius, h1]
    · by_cases h1 : fToC t < 0
      · simp [dewpointCelcius, h1]
      · simp [dewpointCelcius, h1, h2]
    · by_cases h1 : fToC t < 0
      · simp [dewpointCelcius, h1]
      · by_cases h2 : fToC t = -237.7
        · simp [dewpointCelcius, h1, h2]
        · simp [dewpointCelcius, h1, h2, h3]
  refine ⟨hc, ?_⟩
  rw [dewpointFahrenheit, hc]
  norm_num [cToF]

/-- C2 amended witness: the theorem applied at 0 °F, 50 % humidity. -/
theorem C2_dewpoint_guards_witness :
    (fToC 0 < 0 ∨ fToC 0 = -237.7 ∨ dewγ (fun _ => 0) (fToC 0) 50 = 17.27) ∧
    (dewpointCelcius (fun _ => 0) (fToC 0) 50 = 0 ∧
      dewpointFahrenheit (fun _ => 0) 0 50 = 32) :=
  ⟨Or.inl (by norm_num [fToC]),
    C2_dewpoint_guards (fun _ => 0) 0 50 (Or.inl (by norm_num [fToC]))⟩

/-- C3 counterexample: at t = 50 °F, ws = 1 mph the claim's formula branch
(t ≤ 50 with ws > 0) applies, but the code's guard (t >= 50) returns t = 50,
while the claimed formula evaluates to 52.44 (math.Pow(1, 0.16) = 1
exactly, modelled by the constant-one power oracle). -/
theorem C3_counterexample :
    (50 : ℚ) ≤ 50 ∧ (0 : ℚ) < 1 ∧
    windchillFahrenheit (fun _ _ => 1) 50 1 = 50 ∧
    35.74 + 0.6215 * 50 + (-35.75 + 0.4275 * 50) *
      (fun (_ _ : ℚ) => (1 : ℚ)) 1 0.16 = 52.44 ∧
    (50 : ℚ) ≠ 52.44 := by
  refine ⟨le_rfl, by norm_num, ?_, by norm_num, by norm_num⟩
  rw [windchillFahrenheit, if_pos (Or.inl le_rfl)]

/-- C3 amended: windchillFahrenheit returns t unchanged whenever t ≥ 50 °F or
ws ≤ 0 mph, and for t strictly below 50 °F with ws > 0 it returns
35.74 + 0.6215·t + (−35.75 + 0.4275·t)·ws^0.16, the power computed by the
abstracted math.Pow oracle. -/
theorem C3_windchill (powF : ℚ → ℚ → ℚ) (t ws : ℚ) :
    (t ≥ 50 ∨ ws ≤ 0 → windchillFahrenheit powF t ws = t) ∧
    (t < 50 → 0 < ws →
      windchillFahrenheit powF t ws =
        35.74 + 0.6215 * t + (-35.75 + 0.4275 * t) * powF ws 0.16) := by
  constructor
  · intro h
    rw [windchillFahrenheit, if_pos h]
  · intro h1 h2
    have hn : ¬(t ≥ 50 ∨ ws ≤ 0) := by push_neg; exact ⟨h1, h2⟩
    rw [windchillFahrenheit, if_neg hn]

/-- C3 amended witness: the identity branch at (50, 0) and the formula branch
at (20, 15). -/
theorem C3_windchill_witness :
    ((50 : ℚ) ≥ 50 ∨ (0 : ℚ) ≤ 0) ∧
    windchillFahrenheit (fun _ _ => 1) 50 0 = 50 ∧
    (20 : ℚ) < 50 ∧ (0 : ℚ) < 15 ∧
    windchillFahrenheit (fun _ _ => 1) 20 15 =
      35.74 + 0.6215 * 20 + (-35.75 + 0.4275 * 20) *
        (fun (_ _ : ℚ) => (1 : ℚ)) 15 0.16 :=
  ⟨Or.inl le_rfl, (C3_windchill (fun _ _ => 1) 50 0).1 (Or.inl le_rfl),
    by norm_num, by norm_num,
    (C3_windchill (fun _ _ => 1) 20 15).2 (by norm_num) (by norm_num)⟩

/-- C4: heatIndexFahrenheit returns t unchanged whenever t < 80 °F or
rh ≤ 40 %, and for t ≥ 80 °F with rh > 40 % it returns the standard NOAA
(Rothfusz) polynomial regression in t and rh. -/
theorem C4_heatIndex (t rh : ℚ) :
    (t < 80 ∨ rh ≤ 40 → heatIndexFahrenheit t rh = t) ∧
    (80 ≤ t → 40 < rh → heatIndexFahrenheit t rh = heatIndexNOAA t rh) := by
  constructor
  · intro h
    rw [heatIndexFahrenheit, if_pos h]
  · intro h1 h2
    have hn : ¬(t < 80 ∨ rh ≤ 40) := by push_neg; exact ⟨h1, h2⟩
    rw [heatIndexFahrenheit, if_neg hn]
    rfl

/-- C4 witness: the identity branch at (70, 30) and the polynomial branch at
(90, 60). -/
theorem C4_heatIndex_witness :
    ((70 : ℚ) < 80 ∨ (30 : ℚ) ≤ 40) ∧ heatIndexFahrenheit 70 30 = 70 ∧
    (80 : ℚ) ≤ 90 ∧ (40 : ℚ) < 60 ∧
    heatIndexFahrenheit 90 60 = heatIndexNOAA 90 60 :=
  ⟨Or.inl (by norm_num), (C4_heatIndex 70 30).1 (Or.inl (by norm_num)),
    by norm_num, by norm_num,
    (C4_heatIndex 90 60).2 (by norm_num) (by norm_num)⟩

/-- C5: connectToSerialSi1000 is a no-op returning immediately when the
status is Connecting; when the status is NotConnected it first sets
Connecting, then attempts opens, sleeping a fixed 5 seconds after each of the
k failures for any k (no attempt limit), and returns only after a successful
open, with the handle stored and the status Connected; if no observed attempt
succeeds it has not returned. -/
theorem C5_connect (d : DavisSi1000) (attempts : List (Option ℕ)) (k h : ℕ) :
    (d.status = ConnStatus.Connecting →
      connectToSerialSi1000 d attempts = some (d, [])) ∧
    (d.status = ConnStatus.NotConnected →
      connectToSerialSi1000 d (List.replicate k none ++ [some h]) =
        some ({ conn := some h, status := ConnStatus.Connected },
          ConnEvent.setStatus ConnStatus.Connecting ::
            (retryTrace k ++ [ConnEvent.openAttempt, ConnEvent.setConn h,
              ConnEvent.setStatus ConnStatus.Connected]))) ∧
    (d.status = ConnStatus.NotConnected →
      connectToSerialSi1000 d (List.replicate k none) = none) := by
  refine ⟨?_, ?_, ?_⟩ <;> intro hs <;>
    simp [connectToSerialSi1000, hs, connectLoop_success, connectLoop_replicate_none]

/-- C5 witness: two failed attempts then a success on handle 7, and the
Connecting no-op. -/
theorem C5_connect_witness :
    connectToSerialSi1000 { conn := none, status := ConnStatus.NotConnected }
        (List.replicate 2 none ++ [some 7]) =
      some ({ conn := some 7, status := ConnStatus.Connected },
        ConnEvent.setStatus ConnStatus.Connecting ::
          (retryTrace 2 ++ [ConnEvent.openAttempt, ConnEvent.setConn 7,
            ConnEvent.setStatus ConnStatus.Connected])) ∧
    connectToSerialSi1000 { conn := some 3, status := ConnStatus.Connecting } [] =
      some ({ conn := some 3, status := ConnStatus.Connecting }, []) :=
  ⟨(C5_connect { conn := none, status := ConnStatus.NotConnected } [] 2 7).2.1 rfl,
    (C5_connect { conn := some 3, status := ConnStatus.Connecting } [] 0 0).1 rfl⟩

/-- C6: a batch-build or write failure for report K is logged as exactly one
error event, the report is dropped (never stored) without retry, and the
writer processes every report before and after K exactly as it would
otherwise: a write failure never stops the consume loop. -/
theorem C6_store_failure_isolated (pre post : List (WxReport × WriteOutcome))
    (r : WxReport) (o : WriteOutcome) :
    storeReports (pre ++ (r, o) :: post) =
      storeReports pre ++ processOne r o :: storeReports post ∧
    (storeReports (pre ++ (r, o) :: post)).length =
      pre.length + 1 + post.length ∧
    (o.batchOk = false ∨ o.writeOk = false →
      ∀ s, processOne r o ≠ WriterEvent.stored s) := by
  refine ⟨?_, ?_, ?_⟩
  · rw [storeReports_append]
    rfl
  · rw [storeReports_length, List.length_append, List.length_cons]
    omega
  · intro hf s
    rcases hf with hb | hw
    · simp [processOne, hb]
    · by_cases hb : o.batchOk = false
      · simp [processOne, hb]
      · simp [processOne, hb, hw]

/-- C6 witness: a batch-build failure for the first report is not stored, and
the following report is still processed. -/
theorem C6_store_failure_isolated_witness :
    (outcomeBatchFail.batchOk = false ∨ outcomeBatchFail.writeOk = false) ∧
    processOne wxReportZero outcomeBatchFail ≠ WriterEvent.stored wxReportZero :=
  ⟨Or.inl rfl,
    (C6_store_failure_isolated [] [(wxReportZero, outcomeOk)] wxReportZero
      outcomeBatchFail).2.2 (Or.inl rfl) wxReportZero⟩

/-- C7: for any sequence of decoded packets, the Report Writer observes over
the unbuffered handoff channel exactly one report per packet, in exactly the
decode order — no reordering, no duplication. -/
theorem C7_fifo_order (logF : ℚ → ℚ) (powF : ℚ → ℚ → ℚ)
    (packets : List WxPacket) :
    writerObserved logF powF packets =
      packets.map (generateWxReport logF powF) ∧
    (writerObserved logF powF packets).length = packets.length := by
  have h : writerObserved logF powF packets =
      packets.map (generateWxReport logF powF) := by
    rw [writerObserved, channelDeliver, reportsPublished,
      readReportsInner_ok_map, filterMap_publishedOf]
  exact ⟨h, by rw [h, List.length_map]⟩

/-- C8: the rainfall field of every derived report equals the tip count times
0.1, for every tip count including 0. -/
theorem C8_rainfall (logF : ℚ → ℚ) (powF : ℚ → ℚ → ℚ) (p : WxPacket) :
    (generateWxReport logF powF p).Rainfall = (p.RainSpoons : ℚ) * 0.1 := rfl

/-- C9: when the status is Connected, connectToSerialSi1000 matches no switch
case and returns immediately: no open attempt, state and stored handle
unchanged, empty event trace. -/
theorem C9_connected_noop (d : DavisSi1000) (attempts : List (Option ℕ))
    (h : d.status = ConnStatus.Connected) :
    connectToSerialSi1000 d attempts = some (d, []) := by
  simp [connectToSerialSi1000, h]

/-- C9 witness: a Connected receiver holding handle 3 is left unchanged. -/
theorem C9_connected_noop_witness :
    connectToSerialSi1000 { conn := some 3, status := ConnStatus.Connected }
        [none, some 9] =
      some ({ conn := some 3, status := ConnStatus.Connected }, []) :=
  C9_connected_noop { conn := some 3, status := ConnStatus.Connected }
    [none, some 9] rfl

/-- C10: a wire record with the temperature key absent decodes to temperature
zero, and generateWxReport still computes every derived metric, feeding the
zero value into dewpointFahrenheit, windchillFahrenheit and
heatIndexFahrenheit rather than omitting the metric. -/
theorem C10_absent_field_zero (logF : ℚ → ℚ) (powF : ℚ → ℚ → ℚ)
    (w : WxPacketWire) (h : w.temperature_F = none) :
    (decodeWxPacket w).Temperature = 0 ∧
    (generateWxReport logF powF (decodeWxPacket w)).Dewpoint =
      dewpointFahrenheit logF 0 ((decodeWxPacket w).Humidity) ∧
    (generateWxReport logF powF (decodeWxPacket w)).WindChill =
      windchillFahrenheit powF 0 (((decodeWxPacket w).WindSpeed : ℕ) : ℚ) ∧
    (generateWxReport logF powF (decodeWxPacket w)).HeatIndex =
      heatIndexFahrenheit 0 ((decodeWxPacket w).Humidity) := by
  have ht : (decodeWxPacket w).Temperature = 0 := by
    simp [decodeWxPacket, h]
  refine ⟨ht, ?_, ?_, ?_⟩ <;> simp [generateWxReport, ht]

/-- C10 witness: the theorem applied to a concrete wire record lacking the
temperature key. -/
theorem C10_absent_field_zero_witness :
    wireNoTemp.temperature_F = none ∧
    ((decodeWxPacket wireNoTemp).Temperature = 0 ∧
      (generateWxReport (fun _ => 0) (fun _ _ => 1)
          (decodeWxPacket wireNoTemp)).Dewpoint =
        dewpointFahrenheit (fun _ => 0) 0 ((decodeWxPacket wireNoTemp).Humidity) ∧
      (generateWxReport (fun _ => 0) (fun _ _ => 1)
          (decodeWxPacket wireNoTemp)).WindChill =
        windchillFahrenheit (fun _ _ => 1) 0
          (((decodeWxPacket wireNoTemp).WindSpeed : ℕ) : ℚ) ∧
      (generateWxReport (fun _ => 0) (fun _ _ => 1)
          (decodeWxPacket wireNoTemp)).HeatIndex =
        heatIndexFahrenheit 0 ((decodeWxPacket wireNoTemp).Humidity)) :=
  ⟨rfl, C10_absent_field_zero (fun _ => 0) (fun _ _ => 1) wireNoTemp rfl⟩
